import Mathlib

/-!
Verification development for the forest-server task orchestration core
(schedule-generator.js, the task completion module, the task intelligence
module, and the reasoning engine).

The JavaScript source is shallowly embedded: JS objects become structures,
optional / falsy-defaulted fields become Option types with explicit
JS-style defaulting helpers (jsOrInt, jsOrStr), strings are Lean Strings
manipulated through executable char-list operations (the built-in
String.splitOn / toLower / trim do not reduce in the kernel, so the JS
string operations are re-implemented structurally below), and JS numbers
are modelled as Nat / Int.  Idealizations, each noted at the definition it
concerns: integer string parsing is exact (JS doubles lose precision only
beyond 2^53, i.e. for duration strings of quadrillions of minutes);
toLowerCase and trim are ASCII (the data of interest is ASCII); Date
values are epoch milliseconds as integers.
-/

/-! ## JS string primitives (executable, structural) -/

/-- ASCII decimal digit test, as used by the regex class d. -/
def jsIsDigit (c : Char) : Bool := '0' ≤ c && c ≤ '9'

/-- Whitespace class: the ASCII members of the regex class s and of the
JS trim set (unicode spaces are not produced by any data in scope). -/
def jsIsSpace (c : Char) : Bool :=
  c == ' ' || c == '\t' || c == '\n' || c == '\r' || c == '\x0b' || c == '\x0c'

/-- Numeric value of a list of decimal digits (exact; see header note). -/
def digitsVal (cs : List Char) : Nat :=
  cs.foldl (fun a c => a * 10 + (c.toNat - '0'.toNat)) 0

/-- JS Number(s) restricted to the strings that occur here: the empty
string is 0, an unsigned decimal literal is its value, anything else is
NaN (modelled as none).  Signs, decimals and exponents never occur in the
parsed time fields. -/
def jsNumberNat (s : String) : Option Nat :=
  if s.data.all jsIsDigit then some (digitsVal s.data) else none

/-- Splitting a char list at every occurrence of a separator char,
keeping empty segments, exactly like JS String.prototype.split with a
single-char separator. -/
def splitCharsOn (sep : Char) : List Char → List Char → List (List Char)
  | acc, [] => [acc.reverse]
  | acc, c :: rest =>
    if c == sep then acc.reverse :: splitCharsOn sep [] rest
    else splitCharsOn sep (c :: acc) rest

/-- JS s.split(sep) for a one-char separator. -/
def jsSplit (sep : Char) (s : String) : List String :=
  (splitCharsOn sep [] s.data).map String.mk

/-- JS s.toLowerCase(), ASCII portion. -/
def jsToLower (s : String) : String := String.mk (s.data.map Char.toLower)

/-- JS s.trim(), ASCII whitespace. -/
def jsTrim (s : String) : String :=
  String.mk (((s.data.dropWhile jsIsSpace).reverse.dropWhile jsIsSpace).reverse)

/-- Bool test that pat is a prefix of the char list. -/
def charsHavePre : List Char → List Char → Bool
  | [], _ => true
  | _ :: _, [] => false
  | a :: as, b :: bs => a == b && charsHavePre as bs

/-- Bool test that pat occurs as a contiguous sublist, at any position. -/
def charsHaveSub (pat : List Char) : List Char → Bool
  | [] => pat.isEmpty
  | c :: rest => charsHavePre pat (c :: rest) || charsHaveSub pat rest

/-- JS hay.includes(pat), substring containment. -/
def jsIncludes (hay pat : String) : Bool := charsHaveSub pat.data hay.data

/-! ## Data model: frontier nodes and the HTA document -/

/-- FrontierNode: a candidate unit of work, as stored in the documents
that frontierNodes / frontier_nodes arrays hold.  Fields holding Option
are absent-able in JS; the falsiness of 0 and of the empty string where
the code uses the JS or-default idiom is captured by jsOrInt / jsOrStr
at each use site. -/
structure FrontierNode where
  id : String
  title : String
  description : String := ""
  branch : Option String := none
  difficulty : Option Int := none
  duration : Option String := none
  prerequisites : List String := []
  priority : Option Int := none
  completed : Bool := false
  completedAt : Option String := none
  actualDifficulty : Option Int := none
  actualDuration : Option Nat := none
  opportunityType : Option String := none
  generated : Bool := false
  learningOutcome : Option String := none
  sourceBlock : Option String := none
deriving DecidableEq

instance : BEq FrontierNode := ⟨fun a b => decide (a = b)⟩

instance : LawfulBEq FrontierNode where
  eq_of_beq h := of_decide_eq_true h
  rfl := decide_eq_true rfl

/-- The HTA document.  The repository is inconsistent about the array
key: the task completion module reads and writes frontierNodes while the
task intelligence module reads and writes frontier_nodes; a loaded JSON
document may carry either key, so both are modelled as fields. -/
structure HTAData where
  frontierNodes : List FrontierNode := []
  frontier_nodes : List FrontierNode := []
deriving DecidableEq

/-- JS v or-default for numeric fields: absent and 0 both yield the
default, matching JS falsiness. -/
def jsOrInt (v : Option Int) (d : Int) : Int :=
  match v with
  | none => d
  | some x => if x = 0 then d else x

/-- JS v or-default for string fields: absent and empty both yield the
default. -/
def jsOrStr (v : Option String) (d : String) : String :=
  match v with
  | none => d
  | some s => if s = "" then d else s

/-! ## Readiness resolver (getReadyTasks / getReadyNodes / the
availability filter of selectOptimalTask; the three filters are
textually identical in the source) -/

/-- Ids of the completed nodes of the list (schedule-generator.js line
176 and its clones). -/
def completedNodeIds (nodes : List FrontierNode) : List String :=
  (nodes.filter (fun n => n.completed)).map (fun n => n.id)

/-- One prerequisite check: resolved by a completed node id, or by a
completed node title (the legacy fallback). -/
def prereqSatisfied (nodes : List FrontierNode) (prereq : String) : Bool :=
  (completedNodeIds nodes).contains prereq ||
    nodes.any (fun n => n.title == prereq && n.completed)

/-- The filter body shared by getReadyTasks, getReadyNodes and the
availableTasks filter of selectOptimalTask. -/
def nodeIsReady (nodes : List FrontierNode) (node : FrontierNode) : Bool :=
  if node.completed then false
  else if node.prerequisites.length > 0 then
    node.prerequisites.all (prereqSatisfied nodes)
  else true

/-- getReadyNodes of the HTA status module: the readiness filter alone. -/
def getReadyNodes (nodes : List FrontierNode) : List FrontierNode :=
  nodes.filter (fun node => nodeIsReady nodes node)

/-- Stable insertion placing x before the first element of strictly or
equally smaller key: the behavior of the stable JS Array.sort with the
descending comparator used at schedule-generator.js line 192. -/
def insertDescBy (key : FrontierNode → Int) (x : FrontierNode) :
    List FrontierNode → List FrontierNode
  | [] => [x]
  | y :: ys => if key y ≤ key x then x :: y :: ys else y :: insertDescBy key x ys

/-- Stable descending sort by key. -/
def sortDescBy (key : FrontierNode → Int) (l : List FrontierNode) : List FrontierNode :=
  l.foldr (insertDescBy key) []

/-- getReadyTasks of the schedule generator: readiness filter followed by
the descending priority sort (priority defaulting to 200). -/
def getReadyTasks (htaData : HTAData) : List FrontierNode :=
  sortDescBy (fun n => jsOrInt n.priority 200) (getReadyNodes htaData.frontierNodes)

/-- Sample data refuting the orphaned-prerequisite clause of C1: node n2
has the single prerequisite "T", a string that is no node id, yet "T" is
the title of the completed node n1, so n2 is ready. -/
def c1NodeA : FrontierNode := { id := "n1", title := "T", completed := true }

def c1NodeB : FrontierNode := { id := "n2", title := "B", prerequisites := ["T"] }

def c1Nodes : List FrontierNode := [c1NodeA, c1NodeB]

/-! ## Free-text time parsing (parseTimeToMinutes, parseDuration) -/

/-- First unit word of the alternation that is a prefix of the char list,
with its hour flag.  The alternation order matters only for which group
text is captured; the flag already encodes the startsWith hour or hr
test applied to the captured unit. -/
def unitFlag : List (String × Bool) → List Char → Option Bool
  | [], _ => none
  | (u, f) :: rest, cs => if charsHavePre u.data cs then some f else unitFlag rest cs

/-- Leftmost match of the regex digits, optional whitespace, unit
alternation: at each position starting with a digit, take the maximal
digit run, skip whitespace, and try the unit words; on failure resume
one char further (backtracking a greedy digit run can never help, since
the char after a shortened run is a digit and no unit starts with one). -/
def findUnitNum (units : List (String × Bool)) : List Char → Option (Nat × Bool)
  | [] => none
  | c :: rest =>
    if jsIsDigit c then
      let ds := (c :: rest).takeWhile jsIsDigit
      let after := ((c :: rest).dropWhile jsIsDigit).dropWhile jsIsSpace
      match unitFlag units after with
      | some f => some (digitsVal ds, f)
      | none => findUnitNum units rest
    else findUnitNum units rest

/-- parseTimeToMinutes of the task intelligence module: regex
(d+)s*(minute|hour|min|hr) case-insensitive, default 30, times 60 when
the captured unit starts with hour or hr. -/
def parseTimeToMinutes (timeStr : String) : Nat :=
  match findUnitNum [("minute", false), ("hour", true), ("min", false), ("hr", true)]
      (timeStr.data.map Char.toLower) with
  | none => 30
  | some (v, isHour) => if isHour then v * 60 else v

/-- parseDuration of the schedule generator: same shape but the
alternation is only minute|hour, so a bare min or hr does not match and
falls back to the default 30. -/
def parseDuration (durationStr : String) : Nat :=
  match findUnitNum [("minute", false), ("hour", true)]
      (durationStr.data.map Char.toLower) with
  | none => 30
  | some (v, isHour) => if isHour then v * 60 else v

/-! ## Task selector (selectOptimalTask / calculateTaskScore /
isContextRelevant) -/

/-- isContextRelevant: tokens of the lowercased context split on the
space char, keeping only tokens longer than 3 chars, matched as
substrings of lowercased title, space, description. -/
def isContextRelevant (task : FrontierNode) (context : String) : Bool :=
  let taskText := jsToLower (task.title ++ " " ++ task.description)
  let contextLower := jsToLower context
  let keywords := (jsSplit ' ' contextLower).filter (fun word => word.length > 3)
  keywords.any (fun keyword => jsIncludes taskText keyword)

/-- calculateTaskScore: the sequential accumulation of the source,
flattened into one sum in the same order. -/
def calculateTaskScore (task : FrontierNode) (energyLevel : Int)
    (timeInMinutes : Nat) (contextFromMemory : String) : Int :=
  let base := jsOrInt task.priority 200
  let taskDifficulty := jsOrInt task.difficulty 3
  let energyMatch : Int := 5 - ((energyLevel - taskDifficulty).natAbs : Int)
  let taskDuration := parseTimeToMinutes (jsOrStr task.duration "30 minutes")
  let timeMatch : Int := if taskDuration ≤ timeInMinutes then 30 else -50
  let contextBonus : Int :=
    if contextFromMemory ≠ "" ∧ isContextRelevant task contextFromMemory = true then 50 else 0
  let breakthroughBonus : Int :=
    if task.opportunityType = some "breakthrough_amplification" then 100 else 0
  let generatedBonus : Int := if task.generated then 25 else 0
  base + energyMatch * 20 + timeMatch + contextBonus + breakthroughBonus + generatedBonus

/-- selectOptimalTask: readiness filter over frontier_nodes, then the
stable descending sort on the score, returning the first element. -/
def selectOptimalTask (htaData : HTAData) (energyLevel : Int)
    (timeAvailable : String) (contextFromMemory : String) : Option FrontierNode :=
  let nodes := htaData.frontier_nodes
  let availableTasks := nodes.filter (fun node => nodeIsReady nodes node)
  if availableTasks.isEmpty then none
  else
    let timeInMinutes := parseTimeToMinutes timeAvailable
    (sortDescBy
      (fun t => calculateTaskScore t energyLevel timeInMinutes contextFromMemory)
      availableTasks).head?

/-- Generic splitter on a char class, for formalizing whitespace
tokenization as the claim words it. -/
def splitCharsWhen (p : Char → Bool) : List Char → List Char → List (List Char)
  | acc, [] => [acc.reverse]
  | acc, c :: rest =>
    if p c then acc.reverse :: splitCharsWhen p [] rest
    else splitCharsWhen p (c :: acc) rest

/-- The score formula exactly as claim C2 words it: whitespace-separated
tokens of the context, matched in the title concatenated directly with
the description, with priority and difficulty defaulting only when
absent. -/
def c2ClaimScore (task : FrontierNode) (energyLevel : Int)
    (timeInMinutes : Nat) (context : String) : Int :=
  let base := task.priority.getD 200
  let energyMatch : Int := 5 - ((energyLevel - task.difficulty.getD 3).natAbs : Int)
  let timeMatch : Int :=
    if parseTimeToMinutes (jsOrStr task.duration "30 minutes") ≤ timeInMinutes then 30 else -50
  let tokens :=
    ((splitCharsWhen jsIsSpace [] context.data).map String.mk).filter
      (fun word => word.length > 3)
  let contextBonus : Int :=
    if tokens.any (fun word =>
        jsIncludes (jsToLower (task.title ++ task.description)) (jsToLower word)) then 50 else 0
  let breakthroughBonus : Int :=
    if task.opportunityType = some "breakthrough_amplification" then 100 else 0
  let generatedBonus : Int := if task.generated then 25 else 0
  base + energyMatch * 20 + timeMatch + contextBonus + breakthroughBonus + generatedBonus

/-- The amended C2 formula: identical to the claim except that the
context tokens come from splitting the lowercased context on the space
char only, matched inside lowercased title, one space, description, and
the numeric defaults also apply to 0 (JS falsiness). -/
def c2AmendedScore (task : FrontierNode) (energyLevel : Int)
    (timeInMinutes : Nat) (context : String) : Int :=
  let base := jsOrInt task.priority 200
  let energyMatch : Int := 5 - ((energyLevel - jsOrInt task.difficulty 3).natAbs : Int)
  let timeMatch : Int :=
    if parseTimeToMinutes (jsOrStr task.duration "30 minutes") ≤ timeInMinutes then 30 else -50
  let contextBonus : Int :=
    if ((jsSplit ' ' (jsToLower context)).filter (fun word => word.length > 3)).any
        (fun keyword => jsIncludes (jsToLower (task.title ++ " " ++ task.description)) keyword)
    then 50 else 0
  let breakthroughBonus : Int :=
    if task.opportunityType = some "breakthrough_amplification" then 100 else 0
  let generatedBonus : Int := if task.generated then 25 else 0
  base + energyMatch * 20 + timeMatch + contextBonus + breakthroughBonus + generatedBonus

def c2Task : FrontierNode := { id := "t", title := "abc", description := "defg" }

/-! ## getNextTask (task intelligence module) -/

/-- Shape of the value getNextTask returns to the dispatch layer; only
the selected_task field is inspected by the claims. -/
structure NextTaskResult where
  text : String
  selected_task : Option FrontierNode
deriving DecidableEq

/-- getNextTask: when a claude interface exists and its request
resolves, the response is returned as is; when the interface is absent
or the request throws, the legacy placeholder with selected_task null is
returned.  The first argument models the provider: none for absent,
some (error e) for a throwing request, some (ok r) for a response.  The
placeholder text is the ASCII core of the source string. -/
def getNextTask (claude : Option (Except String NextTaskResult))
    (contextFromMemory : String) (energyLevel : Int) (timeAvailable : String) :
    NextTaskResult :=
  match claude with
  | some (Except.ok r) => r
  | some (Except.error _) =>
    { text := "Claude unavailable - no intelligent task yet.", selected_task := none }
  | none =>
    { text := "Claude unavailable - no intelligent task yet.", selected_task := none }

def c3Node : FrontierNode := { id := "r1", title := "Ready task" }

def c3Hta : HTAData := { frontier_nodes := [c3Node] }

/-! ## Completion processor (completeBlock, evolveHTABasedOnLearning,
generateFollowUpTasks, generateOpportunityTasks) -/

/-- One external feedback entry; only sentiment is ever read. -/
structure FeedbackItem where
  sentiment : String
  comment : String := ""
deriving DecidableEq

/-- OpportunityContext as attached to a completed block. -/
structure OpportunityContext where
  engagementLevel : Int
  unexpectedResults : List String
  newSkillsRevealed : List String
  externalFeedback : List FeedbackItem
  socialReactions : List String
  viralPotential : Bool
  industryConnections : List String
  serendipitousEvents : List String
deriving DecidableEq

/-- TimeBlock.  The source field named type is spelled kind here (type
is a Lean keyword).  startMin mirrors numerically the minutes value the
source formats into the startTime string; both are set together by the
packer below, since formatTime and parseTime are mutually inverse on
minute counts.  The meal, break and habit blocks of the source store the
string labels high, medium, low in their priority field while learning
blocks store a number; that field is not read by any claim and the
numeric priority of learning blocks is kept in priorityNum. -/
structure Block where
  id : String
  kind : String
  title : String
  description : Option String := none
  startTime : String := ""
  startMin : Nat := 0
  duration : Nat := 0
  difficulty : Option Int := none
  taskId : Option String := none
  branch : Option String := none
  priorityNum : Option Int := none
  completed : Bool := false
  completedAt : Option String := none
  outcome : Option String := none
  learned : Option String := none
  nextQuestions : Option String := none
  energyAfter : Option Int := none
  difficultyRating : Option Int := none
  breakthrough : Bool := false
  opportunityContext : Option OpportunityContext := none
deriving DecidableEq

/-- The fifteen parameters of completeBlock with their source defaults. -/
structure CompleteArgs where
  blockId : String
  outcome : String
  learned : String := ""
  nextQuestions : String := ""
  energyLevel : Int
  difficultyRating : Int := 3
  breakthrough : Bool := false
  engagementLevel : Int := 5
  unexpectedResults : List String := []
  newSkillsRevealed : List String := []
  externalFeedback : List FeedbackItem := []
  socialReactions : List String := []
  viralPotential : Bool := false
  industryConnections : List String := []
  serendipitousEvents : List String := []
deriving DecidableEq

/-- Replace the first element satisfying p, like mutating the object
that Array.prototype.find returned. -/
def updateFirst (p : α → Bool) (f : α → α) : List α → List α
  | [] => []
  | x :: xs => if p x then f x :: xs else x :: updateFirst p f xs

/-- The singleton of a present non-empty string: the JS idiom
[v].filter(Boolean). -/
def presentStr (v : Option String) : List String :=
  match v with
  | none => []
  | some s => if s = "" then [] else [s]

/-- Truthiness of an optional string field. -/
def optStrTruthy (v : Option String) : Bool :=
  match v with
  | none => false
  | some s => s ≠ ""

/-- The block mutation performed by completeBlock before saving: outcome
fields always written; opportunityContext written only under the
condition engagementLevel !== 5 or unexpectedResults.length > 0 (the
other six list parameters do not occur in that condition in the
source). -/
def applyCompletion (block : Block) (a : CompleteArgs) (nowIso : String) : Block :=
  let base := { block with
    completed := true, completedAt := some nowIso, outcome := some a.outcome,
    learned := some a.learned, nextQuestions := some a.nextQuestions,
    energyAfter := some a.energyLevel, difficultyRating := some a.difficultyRating,
    breakthrough := a.breakthrough }
  if a.engagementLevel ≠ 5 ∨ a.unexpectedResults ≠ [] then
    { base with opportunityContext := some {
        engagementLevel := a.engagementLevel,
        unexpectedResults := a.unexpectedResults,
        newSkillsRevealed := a.newSkillsRevealed,
        externalFeedback := a.externalFeedback,
        socialReactions := a.socialReactions,
        viralPotential := a.viralPotential,
        industryConnections := a.industryConnections,
        serendipitousEvents := a.serendipitousEvents } }
  else base

/-- generateFollowUpTasks: up to two nodes from the sentences of
nextQuestions, ids counted from frontierNodes.length + 1000. -/
def generateFollowUpTasks (block : Block) (htaData : HTAData) : List FrontierNode :=
  let taskIdBase := htaData.frontierNodes.length + 1000
  match block.nextQuestions with
  | none => []
  | some nq =>
    if nq = "" then []
    else
      let questions := (jsSplit '.' nq).filter (fun q => (jsTrim q).length > 0)
      (questions.take 2).enum.map (fun iq =>
        { id := "followup_" ++ toString (taskIdBase + iq.1),
          title := "Explore: " ++ jsTrim iq.2,
          description := "Investigation stemming from " ++ block.title,
          branch := some (jsOrStr block.branch "exploration"),
          difficulty := some (max 1 (jsOrInt block.difficultyRating 3 - 1)),
          duration := some "20 minutes",
          prerequisites := presentStr block.taskId,
          learningOutcome := some ("Understanding of " ++ jsTrim iq.2),
          priority := some (if block.breakthrough then 250 else 200),
          generated := true,
          sourceBlock := some block.id })

/-- generateOpportunityTasks: a breakthrough amplification node when
engagement is at least 8, a networking node when some external feedback
is positive, a viral leverage node when the flag is set; ids share one
counter from frontierNodes.length + 2000.  The call sites guard on the
presence of opportunityContext, so the none branch is unreachable
there. -/
def generateOpportunityTasks (block : Block) (htaData : HTAData) : List FrontierNode :=
  match block.opportunityContext with
  | none => []
  | some context =>
    let base := htaData.frontierNodes.length + 2000
    let bt : List FrontierNode :=
      if context.engagementLevel ≥ 8 then
        [{ id := "breakthrough_" ++ toString base,
           title := "Amplify: " ++ block.title ++ " Success",
           description := "Build on the breakthrough momentum from " ++ block.title,
           branch := some (jsOrStr block.branch "opportunity"),
           difficulty := some (min 5 (jsOrInt block.difficultyRating 3 + 1)),
           duration := some "45 minutes",
           prerequisites := presentStr block.taskId,
           learningOutcome := some "Amplified skills and deeper mastery",
           priority := some 350,
           opportunityType := some "breakthrough_amplification" }]
      else []
    let afterBt := base + bt.length
    let net : List FrontierNode :=
      if context.externalFeedback.length > 0 ∧
          (context.externalFeedback.filter (fun f => f.sentiment == "positive")).length > 0 then
        [{ id := "network_" ++ toString afterBt,
           title := "Follow Up: External Interest",
           description := "Connect with people who showed interest in your "
             ++ block.title ++ " work",
           branch := some "networking",
           difficulty := some 2,
           duration := some "30 minutes",
           learningOutcome := some "Professional connections and feedback",
           priority := some 300,
           opportunityType := some "networking" }]
      else []
    let afterNet := afterBt + net.length
    let viral : List FrontierNode :=
      if context.viralPotential then
        [{ id := "viral_" ++ toString afterNet,
           title := "Leverage: Viral Momentum",
           description := "Capitalize on the viral potential of your "
             ++ block.title ++ " work",
           branch := some "marketing",
           difficulty := some 3,
           duration := some "60 minutes",
           learningOutcome := some "Understanding of viral content and audience building",
           priority := some 320,
           opportunityType := some "viral_leverage" }]
      else []
    bt ++ net ++ viral

/-- evolveHTABasedOnLearning: mark the linked node completed, then
append follow-up tasks when nextQuestions or breakthrough is truthy,
then append opportunity tasks when an opportunityContext is present;
each generator reads the node count as already extended by the previous
step, as in the source. -/
def evolveHTABasedOnLearning (htaData : HTAData) (block : Block) : HTAData :=
  let nodes1 :=
    match block.taskId with
    | none => htaData.frontierNodes
    | some tid =>
      if tid = "" then htaData.frontierNodes
      else
        updateFirst (fun n => n.id == tid)
          (fun n =>
            { n with
              completed := true, completedAt := block.completedAt,
              actualDifficulty := block.difficultyRating,
              actualDuration := some block.duration })
          htaData.frontierNodes
  let hta1 := { htaData with frontierNodes := nodes1 }
  let hta2 :=
    if optStrTruthy block.nextQuestions || block.breakthrough then
      let newTasks := generateFollowUpTasks block hta1
      if newTasks.length > 0 then
        { hta1 with frontierNodes := hta1.frontierNodes ++ newTasks }
      else hta1
    else hta1
  match block.opportunityContext with
  | some _ =>
    let opportunityTasks := generateOpportunityTasks block hta2
    if opportunityTasks.length > 0 then
      { hta2 with frontierNodes := hta2.frontierNodes ++ opportunityTasks }
    else hta2
  | none => hta2

/-- The values completeBlock computes and persists; the learning history
update and the textual response are outside the scope of the claims. -/
structure CompletionOutcome where
  blockCompleted : Block
  schedule : List Block
  hta : HTAData
deriving DecidableEq

/-- completeBlock, with loading and saving factored out: find the block
(error when absent), apply the completion mutation, and evolve the HTA
document only when learned, nextQuestions or breakthrough is truthy. -/
def completeBlockPure (scheduleBlocks : List Block) (htaData : HTAData)
    (a : CompleteArgs) (nowIso : String) : Except String CompletionOutcome :=
  match scheduleBlocks.find? (fun b => b.id == a.blockId) with
  | none => Except.error ("Block " ++ a.blockId ++ " not found in the schedule of the day")
  | some block =>
    let updated := applyCompletion block a nowIso
    let schedule2 := updateFirst (fun b => b.id == a.blockId) (fun _ => updated) scheduleBlocks
    let hta2 :=
      if a.learned ≠ "" ∨ a.nextQuestions ≠ "" ∨ a.breakthrough then
        evolveHTABasedOnLearning htaData updated
      else htaData
    Except.ok { blockCompleted := updated, schedule := schedule2, hta := hta2 }

def c7Block : Block := { id := "b1", kind := "learning", title := "Task block" }

def c7Args : CompleteArgs :=
  { blockId := "b1", outcome := "done", energyLevel := 4, engagementLevel := 5,
    externalFeedback := [{ sentiment := "positive" }] }

def c7wBlock : Block := { id := "w1", kind := "learning", title := "W" }

def c7wArgs : CompleteArgs :=
  { blockId := "w1", outcome := "ok", energyLevel := 3, engagementLevel := 9 }

def c8Block : Block :=
  { id := "b2", kind := "learning", title := "Deep work", taskId := some "n1" }

def c8Hta : HTAData := { frontierNodes := [{ id := "n1", title := "Deep work" }] }

def c8Args : CompleteArgs :=
  { blockId := "b2", outcome := "finished", energyLevel := 4, engagementLevel := 9 }

def c8wCtx : OpportunityContext :=
  { engagementLevel := 9, unexpectedResults := ["surprise"], newSkillsRevealed := [],
    externalFeedback := [], socialReactions := [], viralPotential := false,
    industryConnections := [], serendipitousEvents := [] }

def c8wBlock : Block :=
  { id := "w2", kind := "learning", title := "Sketching", opportunityContext := some c8wCtx }

/-! ## Strategy evolution engine (analyzeCurrentStrategy,
detectStuckIndicators, analyzeFeedback, determineEvolutionStrategy) -/

/-- One completedTopics record of the learning history; completedAt is
epoch milliseconds (the source stores an ISO string and re-parses it
through the Date constructor).  Only the fields the stuck detection
reads are modelled. -/
structure CompletedTopic where
  topic : String := ""
  difficulty : Option Int := none
  energyAfter : Option Int := none
  breakthrough : Bool := false
  completedAt : Int
deriving DecidableEq

/-- The learning history document; insights, knowledgeGaps and
skillProgression are not read by any claim and are omitted. -/
structure LearningHistory where
  completedTopics : List CompletedTopic := []
deriving DecidableEq

/-- Result shape of analyzeFeedback. -/
structure FeedbackAnalysis where
  sentiment : String
  keywords : List String
  original : Option String
deriving DecidableEq

/-- analyzeFeedback: keyword sentiment on the lowercased text, negative
before positive, neutral otherwise; keywords split from the original
text on the space char. -/
def analyzeFeedback (feedback : String) : FeedbackAnalysis :=
  if feedback = "" then { sentiment := "neutral", keywords := [], original := none }
  else
    let feedbackLower := jsToLower feedback
    let sentiment :=
      if jsIncludes feedbackLower "boring" || jsIncludes feedbackLower "stuck" ||
          jsIncludes feedbackLower "difficult" then "negative"
      else if jsIncludes feedbackLower "great" || jsIncludes feedbackLower "interesting" ||
          jsIncludes feedbackLower "progress" then "positive"
      else "neutral"
    { sentiment := sentiment,
      keywords := (jsSplit ' ' feedback).filter (fun word => word.length > 3),
      original := some feedback }

/-- getAvailableTasksCount: the readiness filter over frontier_nodes,
counted. -/
def getAvailableTasksCount (htaData : HTAData) : Nat :=
  (htaData.frontier_nodes.filter (fun node => nodeIsReady htaData.frontier_nodes node)).length

/-- The completions of the trailing 7 days: the source compares
(now - completedAt) / 86400000 <= 7, equivalent over the reals to the
product form used here. -/
def recentCompletions (history : LearningHistory) (now : Int) : List CompletedTopic :=
  history.completedTopics.filter (fun t => now - t.completedAt ≤ 7 * 86400000)

/-- The low-engagement test: average of energyAfter (defaulting, also
for 0, to 3) over the recent completions is below 2.5; the division by
max(length, 1) is cleared into the exact integer inequality. -/
def lowEngagementB (history : LearningHistory) (now : Int) : Bool :=
  let recents := recentCompletions history now
  let total := (recents.map (fun c => jsOrInt c.energyAfter 3)).sum
  2 * total < 5 * max (recents.length : Int) 1

/-- detectStuckIndicators: the three pushes of the source as a
concatenation of conditional singletons, in push order. -/
def detectStuckIndicators (htaData : HTAData) (history : LearningHistory)
    (now : Int) : List String :=
  (if getAvailableTasksCount htaData = 0 then ["no_available_tasks"] else []) ++
  (if (recentCompletions history now).length = 0 then ["no_recent_progress"] else []) ++
  (if lowEngagementB history now then ["low_engagement"] else [])

/-- The analysis object assembled by analyzeCurrentStrategy. -/
structure StrategyAnalysis where
  completedTasks : Nat
  totalTasks : Nat
  availableTasks : Nat
  stuckIndicators : List String
  userFeedback : FeedbackAnalysis
  recommendedEvolution : Option String
deriving DecidableEq

/-- determineEvolutionStrategy: first match wins, in source order. -/
def determineEvolutionStrategy (analysis : StrategyAnalysis) : String :=
  if analysis.stuckIndicators.contains "no_available_tasks" then "generate_new_tasks"
  else if analysis.stuckIndicators.contains "low_engagement" then "increase_variety_and_interest"
  else if analysis.userFeedback.sentiment = "negative" then "address_user_concerns"
  else if analysis.availableTasks < 3 then "expand_task_frontier"
  else "optimize_existing_sequence"

/-- analyzeCurrentStrategy with its document loads factored out: build
the analysis, then fill in the recommended evolution from it. -/
def analyzeCurrentStrategyPure (htaData : HTAData) (history : LearningHistory)
    (feedback : String) (now : Int) : StrategyAnalysis :=
  let analysis0 : StrategyAnalysis :=
    { completedTasks := (htaData.frontier_nodes.filter (fun n => n.completed)).length,
      totalTasks := htaData.frontier_nodes.length,
      availableTasks := getAvailableTasksCount htaData,
      stuckIndicators := detectStuckIndicators htaData history now,
      userFeedback := analyzeFeedback feedback,
      recommendedEvolution := none }
  { analysis0 with recommendedEvolution := some (determineEvolutionStrategy analysis0) }

def c10Hta : HTAData :=
  { frontier_nodes :=
      [{ id := "a1", title := "A1" }, { id := "a2", title := "A2" },
       { id := "a3", title := "A3" }] }

def c10wHistory : LearningHistory :=
  { completedTopics := [{ completedAt := 1000, energyAfter := some 5 }] }

/-! ## Task duration (calculateTaskDuration of the schedule generator)

The energy multipliers 1.5 and 0.7 are JS double multiplications.  1.5
and every relevant product base times 1.5 are exactly representable, so
Math.round(base * 1.5) is floor((3 base + 1) / 2).  0.7 is not exactly
representable: the double closest to 0.7 is fl07Sig / 2^53, and the JS
product is that rational times base, correctly rounded once to 53
significant bits (round to nearest, ties to even); Math.round then takes
floor(x + 1/2) of the resulting rational.  Both are reproduced exactly
below; e.g. 45 * 0.7 is 31.499999999999996 in JS so Math.round gives 31
where exact rational rounding would give 32, and the model agrees. -/

/-- Bit length of a natural number (fuel-based so the kernel can
evaluate it; fuel n suffices since log2 n + 1 is at most n). -/
def bitlenAux : Nat → Nat → Nat
  | 0, _ => 0
  | fuel + 1, n => if n = 0 then 0 else bitlenAux fuel (n / 2) + 1

def bitlen (n : Nat) : Nat := bitlenAux n n

/-- The 53-bit significand of the double nearest to 0.7, i.e.
double(0.7) = fl07Sig / 2^53. -/
def fl07Sig : Nat := 6305039478318694

/-- Round n / d to the nearest integer, ties to even. -/
def roundHalfEvenDiv (n d : Nat) : Nat :=
  let q := n / d
  let r := n % d
  if 2 * r < d then q
  else if 2 * r > d then q + 1
  else if q % 2 = 0 then q else q + 1

/-- Math.round(base * 0.7) as JS computes it: the exact integer
base * fl07Sig over 2^53 is rounded to a double (53 significant bits,
ties to even), then Math.round takes floor of that plus one half. -/
def jsMulRound07 (base : Nat) : Nat :=
  let n := base * fl07Sig
  if n = 0 then 0
  else
    let b := bitlen n
    let s := if b ≤ 53 then 0 else b - 53
    let m := roundHalfEvenDiv n (2 ^ s)
    (m * 2 ^ s + 2 ^ 52) / 2 ^ 53

/-- Math.round(base * 1.5): exact for every base below 2^51; above that
the 15..120 clamp saturates identically. -/
def jsMulRound15 (base : Nat) : Nat := (3 * base + 1) / 2

/-- The life_structure_preferences object, fields as read by the
schedule generator. -/
structure Preferences where
  wake_time : Option String := none
  sleep_time : Option String := none
  meal_times : Option (List String) := none
  focus_duration : Option String := none
  break_preferences : Option String := none
deriving DecidableEq

/-- calculateTaskDuration: focus-preference overrides first (25 fixed, 1
hour fixed 60, 2 hour capped double of the base), otherwise the base
scaled by the energy multiplier and clamped to 15..120. -/
def calculateTaskDuration (task : FrontierNode) (preferences : Preferences)
    (energyLevel : Int) : Nat :=
  let baseDuration := parseDuration (jsOrStr task.duration "30 minutes")
  let focusDuration := jsOrStr preferences.focus_duration "flexible"
  if jsIncludes focusDuration "25" then 25
  else if jsIncludes focusDuration "1 hour" then 60
  else if jsIncludes focusDuration "2 hour" then min 120 (baseDuration * 2)
  else
    let rounded :=
      if energyLevel ≥ 4 then jsMulRound15 baseDuration
      else if energyLevel ≤ 2 then jsMulRound07 baseDuration
      else baseDuration
    max 15 (min 120 rounded)

def c9Task : FrontierNode := { id := "d1", title := "D", duration := some "30 minutes" }

def c9Prefs : Preferences := { focus_duration := some "2 hours" }

/-- The duration rule as amended: 25 when the focus preference mentions
25; else 60 when it mentions 1 hour; else the double of the base capped
at 120 when it mentions 2 hour; else the base times the JS-rounded
energy multiplier (1.5 for energy at least 4, 0.7 for energy at most 2,
1 otherwise) clamped to 15..120. -/
def c9AmendedDuration (task : FrontierNode) (preferences : Preferences)
    (energyLevel : Int) : Nat :=
  let base := parseDuration (jsOrStr task.duration "30 minutes")
  let focus := jsOrStr preferences.focus_duration "flexible"
  if jsIncludes focus "25" then 25
  else if jsIncludes focus "1 hour" then 60
  else if jsIncludes focus "2 hour" then min 120 (base * 2)
  else
    max 15 (min 120
      (if energyLevel ≥ 4 then jsMulRound15 base
       else if energyLevel ≤ 2 then jsMulRound07 base
       else base))

/-! ## Schedule packer (createTimeBlocks and helpers)

createTimeBlocks as written reads the name priorityHours in its first
loop statement (schedule-generator.js line 215); that name is a local of
generateComprehensiveSchedule (line 117) and is neither a parameter nor
a local of createTimeBlocks, and no global of that name exists in the ES
module, so the first loop iteration throws ReferenceError.  The faithful
embedding createTimeBlocks therefore errors whenever the loop body would
run.  The loop algorithm itself, with priorityHours supplied as the
parameter the surrounding code intends, is embedded separately as
createTimeBlocksScoped so that the packing behavior the spec describes
can be settled against the source text of the loop. -/

/-- JS s.toUpperCase(), ASCII portion. -/
def jsToUpper (s : String) : String := String.mk (s.data.map Char.toUpper)

/-- parseTime: empty input defaults to 420 (7:00 AM); split on space
into time and optional period, split the time on the colon, Number the
hour part (a non-numeric hour makes the whole result NaN, modelled as
none), minutes default to 0 when missing or NaN; PM adds 720 except for
hour 12, AM with hour 12 keeps only the minutes. -/
def parseTime (timeStr : String) : Option Nat :=
  if timeStr = "" then some 420
  else
    let parts := jsSplit ' ' timeStr
    let time := parts.headD ""
    let period := parts.get? 1
    let tparts := jsSplit ':' time
    let minutes : Nat :=
      match tparts.get? 1 with
      | none => 0
      | some ms =>
        match jsNumberNat ms with
        | none => 0
        | some v => v
    match jsNumberNat (tparts.headD "") with
    | none => none
    | some hours =>
      let total := hours * 60 + minutes
      if period.map jsToUpper = some "PM" ∧ hours ≠ 12 then some (total + 12 * 60)
      else if period.map jsToUpper = some "AM" ∧ hours = 12 then some minutes
      else some total

def padTwo (n : Nat) : String := if n < 10 then "0" ++ toString n else toString n

/-- formatTime: hours over 12 lose 12 and gain PM, hour 0 prints as 12
AM; minutes are zero-padded.  parseTime inverts formatTime on every
minute count. -/
def formatTime (minutes : Nat) : String :=
  let hours := minutes / 60
  let mins := minutes % 60
  let period := if hours ≥ 12 then "PM" else "AM"
  let displayHours := if hours > 12 then hours - 12 else if hours = 0 then 12 else hours
  toString displayHours ++ ":" ++ padTwo mins ++ " " ++ period

/-- Meal times parsed; a NaN entry (none) never matches the meal
window, exactly as NaN comparisons are false in JS. -/
def parseMealTimes (mealTimes : List String) : List (Option Nat) :=
  mealTimes.map parseTime

/-- isMealTime: within 15 minutes of some meal time. -/
def isMealTime (currentTime : Nat) (mealTimes : List (Option Nat)) : Bool :=
  mealTimes.any (fun m =>
    match m with
    | none => false
    | some mealTime => ((currentTime : Int) - mealTime).natAbs ≤ 15)

/-- getMealType by hour of day (the mealTimes parameter is unused in
the source as well). -/
def getMealType (currentTime : Nat) (mealTimes : List (Option Nat)) : String :=
  let hour := currentTime / 60
  if hour ≤ 10 then "Breakfast"
  else if hour ≤ 14 then "Lunch"
  else if hour ≤ 16 then "Snack"
  else "Dinner"

/-- getBreakDuration from the break preference text. -/
def getBreakDuration (preferences : Preferences) : Nat :=
  let breakPref := jsOrStr preferences.break_preferences "every hour"
  if jsIncludes breakPref "15" then 15
  else if jsIncludes breakPref "10" then 10
  else if jsIncludes breakPref "5" then 5
  else 15

/-- generateHabitBlock: title and duration by hour of day (constraints
and preferences are unused in the source as well). -/
def generateHabitBlock (currentTime : Nat) : String × Nat :=
  let hour := currentTime / 60
  if hour ≤ 9 then ("Morning Routine", 30)
  else if hour ≥ 19 then ("Evening Wind-down", 45)
  else ("Mindful Transition", 15)

/-- The fallback object of selectTaskForTimeSlot.  Unreachable from the
packer loop, whose learning branch requires a non-empty pool (the
source stores the number 30 in its duration field; the string form is
used here, see the structure comment). -/
def exploreGeneralTask : FrontierNode :=
  { id := "explore_general", title := "Explore: General Learning",
    description := "Explore general learning opportunities",
    difficulty := some 1, duration := some "30 minutes" }

/-- selectTaskForTimeSlot: difficulty band by energy and the 9 to 11
morning window (difficulty defaulting to 1 here), falling back to the
whole pool, then the first (highest-priority) candidate. -/
def selectTaskForTimeSlot (readyTasks : List FrontierNode) (currentTime : Nat)
    (energyLevel : Int) (focusType : String) : FrontierNode :=
  match readyTasks with
  | [] => exploreGeneralTask
  | _ :: _ =>
    let hour := currentTime / 60
    let isHighEnergyTime := 9 ≤ hour ∧ hour ≤ 11
    let suitableTasks := readyTasks.filter (fun task =>
      let taskDifficulty := jsOrInt task.difficulty 1
      if energyLevel ≥ 4 ∧ isHighEnergyTime then taskDifficulty ≥ 2
      else if energyLevel ≤ 2 then taskDifficulty ≤ 2
      else taskDifficulty ≤ 3)
    let suitableTasks := if suitableTasks.isEmpty then readyTasks else suitableTasks
    suitableTasks.headD exploreGeneralTask

/-- The meal block pushed by the loop (the source also stores the
string high in its priority field, see the Block comment). -/
def mealBlock (bid t : Nat) (meals : List (Option Nat)) : Block :=
  { id := "meal_" ++ toString bid, kind := "meal", title := getMealType t meals,
    startTime := formatTime t, startMin := t, duration := 45 }

/-- The learning block pushed by the loop. -/
def learningBlockOf (bid t : Nat) (task : FrontierNode) (d : Nat) : Block :=
  { id := "task_" ++ toString bid, kind := "learning", title := task.title,
    description := some task.description, startTime := formatTime t, startMin := t,
    duration := d, difficulty := task.difficulty, taskId := some task.id,
    branch := task.branch, priorityNum := some (jsOrInt task.priority 200) }

/-- The break block pushed after a learning block. -/
def breakBlock (bid t : Nat) (preferences : Preferences) : Block :=
  { id := "break_" ++ toString bid, kind := "break", title := "Break & Reflection",
    startTime := formatTime t, startMin := t, duration := getBreakDuration preferences }

/-- The habit block pushed outside meals and learning. -/
def habitBlockOf (bid t : Nat) : Block :=
  { id := "habit_" ++ toString bid, kind := "habit", title := (generateHabitBlock t).1,
    startTime := formatTime t, startMin := t, duration := (generateHabitBlock t).2 }

/-- The while loop of createTimeBlocks with priorityHours supplied.
One fuel unit per iteration; every iteration pushes at least one block
and the cap check ends the loop once more than 50 blocks exist, so at
most 51 iterations ever run and the fuel of 52 supplied by
createTimeBlocksScoped is never exhausted.  count is the number of
blocks already pushed; the source blockId counter always equals
count + 1.  The cap check blocks.length > 50 runs once per iteration,
after the one or two pushes, as in the source. -/
def packLoop (prioH : List Int) (meals : List (Option Nat)) (prefs : Preferences)
    (energy : Int) (focusType : String) (endTime : Nat) :
    Nat → Nat → List FrontierNode → Nat → List Block
  | 0, _, _, _ => []
  | fuel + 1, currentTime, readyTasks, count =>
    if currentTime < endTime then
      if isMealTime currentTime meals then
        mealBlock (count + 1) currentTime meals ::
          (if count + 1 > 50 then []
           else packLoop prioH meals prefs energy focusType endTime fuel
             (currentTime + 45) readyTasks (count + 1))
      else if (prioH.isEmpty || prioH.contains ((currentTime / 60 : Nat) : Int)) = true ∧
          readyTasks.length > 0 then
        let task := selectTaskForTimeSlot readyTasks currentTime energy focusType
        let d := calculateTaskDuration task prefs energy
        if currentTime + d < endTime - 30 then
          learningBlockOf (count + 1) currentTime task d ::
            breakBlock (count + 2) (currentTime + d) prefs ::
            (if count + 2 > 50 then []
             else packLoop prioH meals prefs energy focusType endTime fuel
               (currentTime + d + getBreakDuration prefs) (readyTasks.erase task) (count + 2))
        else
          learningBlockOf (count + 1) currentTime task d ::
            (if count + 1 > 50 then []
             else packLoop prioH meals prefs energy focusType endTime fuel
               (currentTime + d) (readyTasks.erase task) (count + 1))
      else
        habitBlockOf (count + 1) currentTime ::
          (if count + 1 > 50 then []
           else packLoop prioH meals prefs energy focusType endTime fuel
             (currentTime + (generateHabitBlock currentTime).2) readyTasks (count + 1))
    else []

/-- The createTimeBlocks loop with the priorityHours filter in scope. -/
def createTimeBlocksScoped (priorityHours : List Int) (wakeTime sleepTime : Nat)
    (mealTimes : List (Option Nat)) (readyTasks : List FrontierNode)
    (energyLevel : Int) (focusType : String) (preferences : Preferences) : List Block :=
  packLoop priorityHours mealTimes preferences energyLevel focusType sleepTime
    52 wakeTime readyTasks 0

/-- createTimeBlocks as written: any iteration of the loop evaluates
the undefined name priorityHours and throws ReferenceError, so the call
errors exactly when wakeTime < sleepTime, and returns the empty block
list otherwise. -/
def createTimeBlocks (wakeTime sleepTime : Nat) (mealTimes : List (Option Nat))
    (readyTasks : List FrontierNode) (energyLevel : Int) (focusType : String)
    (preferences : Preferences) : Except String (List Block) :=
  if wakeTime < sleepTime then Except.error "priorityHours is not defined"
  else Except.ok []

deriving instance DecidableEq for Except

/-- The meal strings the generator falls back to. -/
def defaultMealTimes : List String := ["8:00 AM", "12:00 PM", "6:00 PM"]

/-- The parsed meal windows generateComprehensiveSchedule passes to the
packer (an empty meal_times array is truthy in JS and is kept). -/
def mealMinutes (preferences : Preferences) : List (Option Nat) :=
  (match preferences.meal_times with
   | none => defaultMealTimes
   | some l => l).map parseTime

/-- What generateDailySchedule produces: the response text and the day
document it saved, none when the catch branch ran. -/
structure GenDailyOutcome where
  text : String
  savedBlocks : Option (List Block)
deriving DecidableEq

/-- generateDailySchedule with its storage calls factored out: parse
the preference times, collect ready tasks, run createTimeBlocks; on its
error take the catch branch, produce the error text and save nothing.
A NaN wake or sleep time makes the loop condition false and yields an
empty schedule instead. -/
def generateDailySchedulePure (preferences : Preferences) (htaData : HTAData)
    (energyLevel : Int) (focusType : String) : GenDailyOutcome :=
  let wake := parseTime (jsOrStr preferences.wake_time "7:00 AM")
  let sleep := parseTime (jsOrStr preferences.sleep_time "10:00 PM")
  let readyTasks := getReadyTasks htaData
  let blocksE :=
    match wake, sleep with
    | some w, some s =>
      createTimeBlocks w s (mealMinutes preferences) readyTasks energyLevel
        focusType preferences
    | _, _ => Except.ok []
  match blocksE with
  | Except.ok bs => { text := "Daily Schedule Generated", savedBlocks := some bs }
  | Except.error e =>
    { text := "Error generating schedule: " ++ e, savedBlocks := none }

/-- The tiling invariant of the packer loop: each block starts exactly
at the cursor and the cursor advances by the block duration. -/
def ChainFrom : Nat → List Block → Prop
  | _, [] => True
  | t, b :: bs => b.startMin = t ∧ ChainFrom (t + b.duration) bs

def c5Task : FrontierNode :=
  { id := "t1", title := "Practice piano scales", description := "Scales",
    difficulty := some 2, duration := some "30 minutes", priority := some 200 }

def c5Blocks : List Block :=
  createTimeBlocksScoped [] 420 1320 [some 720] [c5Task] 3 "mixed" {}

/-! ## Theorems: shared lemmas, then the claim verdicts -/

theorem prereqSatisfied_iff (nodes : List FrontierNode) (p : String) :
    prereqSatisfied nodes p = true ↔
      ∃ c ∈ nodes, c.completed = true ∧ (c.id = p ∨ c.title = p) := by
  simp only [prereqSatisfied, Bool.or_eq_true, List.elem_iff, List.contains,
    completedNodeIds, List.mem_map, List.mem_filter, List.any_eq_true,
    Bool.and_eq_true, beq_iff_eq]
  constructor
  · rintro (⟨c, ⟨hc, hcomp⟩, hid⟩ | ⟨c, hc, hti, hcomp⟩)
    · exact ⟨c, hc, hcomp, Or.inl hid⟩
    · exact ⟨c, hc, hcomp, Or.inr hti⟩
  · rintro ⟨c, hc, hcomp, hid | hti⟩
    · exact Or.inl ⟨c, ⟨hc, hcomp⟩, hid⟩
    · exact Or.inr ⟨c, hc, hti, hcomp⟩

theorem nodeIsReady_iff (nodes : List FrontierNode) (node : FrontierNode) :
    nodeIsReady nodes node = true ↔
      node.completed = false ∧
        ∀ p ∈ node.prerequisites,
          ∃ c ∈ nodes, c.completed = true ∧ (c.id = p ∨ c.title = p) := by
  unfold nodeIsReady
  cases hc : node.completed with
  | true => simp
  | false =>
    simp only [if_false, Bool.false_eq_true, true_and]
    cases hp : node.prerequisites with
    | nil => simp [hp]
    | cons a l =>
      have hlen : (a :: l).length > 0 := Nat.succ_pos _
      rw [if_pos hlen, List.all_eq_true]
      constructor
      · intro h p hpmem; exact (prereqSatisfied_iff nodes p).mp (h p hpmem)
      · intro h p hpmem; exact (prereqSatisfied_iff nodes p).mpr (h p hpmem)

theorem mem_insertDescBy (key : FrontierNode → Int) (x a : FrontierNode)
    (l : List FrontierNode) : a ∈ insertDescBy key x l ↔ a = x ∨ a ∈ l := by
  induction l with
  | nil => simp [insertDescBy]
  | cons y ys ih =>
    simp only [insertDescBy]
    split
    · simp
    · rw [List.mem_cons, List.mem_cons, ih]
      tauto

theorem mem_sortDescBy (key : FrontierNode → Int) (a : FrontierNode)
    (l : List FrontierNode) : a ∈ sortDescBy key l ↔ a ∈ l := by
  induction l with
  | nil => simp [sortDescBy]
  | cons y ys ih =>
    show a ∈ insertDescBy key y (sortDescBy key ys) ↔ _
    rw [mem_insertDescBy]
    simp only [List.mem_cons, ih]

/-- C1 counterexample: the claim says a node with a prerequisite
referencing an id that no node carries is never ready; in the node list
c1Nodes no node has id "T", node n2 has prerequisite list ["T"], and yet
n2 is returned by the readiness computation because "T" matches the
title of the completed node n1. -/
theorem c1_falsified :
    c1NodeB ∈ getReadyNodes c1Nodes ∧
      (∀ n ∈ c1Nodes, n.id ≠ "T") ∧ c1NodeB.prerequisites = ["T"] ∧
      c1NodeB.completed = false := by
  refine ⟨by decide, by decide, by decide, by decide⟩

/-- C1 (amended): the readiness computation (getReadyNodes, and
getReadyTasks up to its priority sort) returns a node iff it is not
completed and every prerequisite equals the id of a completed node or
the title of some completed node; a node with an empty prerequisite list
is ready iff it is not completed; and a node with a prerequisite that
neither equals any completed node id nor any completed node title is
never ready. -/
theorem c1_readiness_characterization :
    (∀ (nodes : List FrontierNode) (node : FrontierNode),
        node ∈ getReadyNodes nodes ↔
          node ∈ nodes ∧ node.completed = false ∧
            ∀ p ∈ node.prerequisites,
              ∃ c ∈ nodes, c.completed = true ∧ (c.id = p ∨ c.title = p)) ∧
    (∀ (htaData : HTAData) (node : FrontierNode),
        node ∈ getReadyTasks htaData ↔ node ∈ getReadyNodes htaData.frontierNodes) ∧
    (∀ (nodes : List FrontierNode) (node : FrontierNode),
        node.prerequisites = [] →
          (node ∈ getReadyNodes nodes ↔ node ∈ nodes ∧ node.completed = false)) ∧
    (∀ (nodes : List FrontierNode) (node : FrontierNode) (p : String),
        p ∈ node.prerequisites →
          (∀ c ∈ nodes, c.completed = true → c.id ≠ p ∧ c.title ≠ p) →
          node ∉ getReadyNodes nodes) := by
  have hmain : ∀ (nodes : List FrontierNode) (node : FrontierNode),
      node ∈ getReadyNodes nodes ↔
        node ∈ nodes ∧ node.completed = false ∧
          ∀ p ∈ node.prerequisites,
            ∃ c ∈ nodes, c.completed = true ∧ (c.id = p ∨ c.title = p) := by
    intro nodes node
    rw [getReadyNodes, List.mem_filter, nodeIsReady_iff]
  refine ⟨hmain, ?_, ?_, ?_⟩
  · intro htaData node
    exact mem_sortDescBy _ _ _
  · intro nodes node hpre
    rw [hmain]
    simp [hpre]
  · intro nodes node p hp hnone hmem
    rcases (hmain nodes node).mp hmem with ⟨-, -, hall⟩
    rcases hall p hp with ⟨c, hc, hcomp, hid | hti⟩
    · exact (hnone c hc hcomp).1 hid
    · exact (hnone c hc hcomp).2 hti

/-- Witness for C1: the never-ready clause applied at a concrete input
(one completed node with id "y" and title "z", one node whose single
prerequisite "x" resolves to nothing). -/
theorem c1_readiness_characterization_witness :
    ({ id := "m2", title := "M2", prerequisites := ["x"] } : FrontierNode) ∉
      getReadyNodes
        [{ id := "y", title := "z", completed := true },
         { id := "m2", title := "M2", prerequisites := ["x"] }] :=
  c1_readiness_characterization.2.2.2 _ _ "x" (by decide) (by decide)

/-- C2 counterexample: the claim formula awards the context bonus for
the token bcdefg because it is a substring of the directly concatenated
abcdefg, but the code joins title and description with a space, so
calculateTaskScore withholds the bonus: 330 versus 380. -/
theorem c2_falsified :
    calculateTaskScore c2Task 3 30 "bcdefg" = 330 ∧
      c2ClaimScore c2Task 3 30 "bcdefg" = 380 ∧
      calculateTaskScore c2Task 3 30 "bcdefg" ≠ c2ClaimScore c2Task 3 30 "bcdefg" := by
  refine ⟨by decide, by decide, by decide⟩

/-- C2 (amended): for every task, energy level, available minutes and
context, calculateTaskScore equals the claimed sum with the context
bonus read off the space-split lowercased context matched inside
lowercased title, space, description, and with the numeric defaults
applying to absent or zero fields. -/
theorem c2_score_formula (task : FrontierNode) (energyLevel : Int)
    (timeInMinutes : Nat) (context : String) :
    calculateTaskScore task energyLevel timeInMinutes context =
      c2AmendedScore task energyLevel timeInMinutes context := by
  unfold calculateTaskScore c2AmendedScore
  by_cases hc : context = ""
  · subst hc
    have hempty : ((jsSplit ' ' (jsToLower "")).filter (fun word => word.length > 3)) = [] := by
      decide
    simp [hempty, isContextRelevant]
  · simp only [ne_eq, hc, not_false_eq_true, true_and, isContextRelevant]

/-- C3: with the intelligence provider absent, and likewise when its
request throws, getNextTask returns the placeholder whose selected task
is null; it never invokes the deterministic selector, although on the
same state selectOptimalTask does return the ready node. -/
theorem c3_placeholder_instead_of_fallback :
    (∀ (ctx : String) (energy : Int) (time : String),
        (getNextTask none ctx energy time).selected_task = none) ∧
    (∀ (e ctx : String) (energy : Int) (time : String),
        (getNextTask (some (Except.error e)) ctx energy time).selected_task = none) ∧
    selectOptimalTask c3Hta 3 "30 minutes" "" = some c3Node := by
  refine ⟨fun _ _ _ => rfl, fun _ _ _ _ => rfl, by decide⟩

/-- C7 counterexample: completing with default engagement 5, empty
unexpectedResults, but a non-empty externalFeedback list attaches no
OpportunityContext, although the claim requires one whenever any list
field is non-empty. -/
theorem c7_falsified :
    (completeBlockPure [c7Block] {} c7Args "2025-01-01T00:00:00Z").toOption.map
        (fun o => o.blockCompleted.opportunityContext) = some none ∧
      c7Args.externalFeedback ≠ [] ∧ c7Args.engagementLevel = 5 := by
  refine ⟨by decide, by decide, by decide⟩

/-- C7 (amended): completeBlock attaches an OpportunityContext to the
completed block iff the engagement level differs from the default 5 or
the unexpected-results list is non-empty; the other list parameters
(new skills, external feedback, social reactions, industry connections,
serendipitous events) do not influence the attachment. -/
theorem c7_attach_condition (scheduleBlocks : List Block) (htaData : HTAData)
    (a : CompleteArgs) (nowIso : String) (b0 : Block)
    (hfind : scheduleBlocks.find? (fun b => b.id == a.blockId) = some b0)
    (hnone : b0.opportunityContext = none) :
    ∃ out, completeBlockPure scheduleBlocks htaData a nowIso = Except.ok out ∧
      (out.blockCompleted.opportunityContext ≠ none ↔
        (a.engagementLevel ≠ 5 ∨ a.unexpectedResults ≠ [])) := by
  unfold completeBlockPure
  rw [hfind]
  refine ⟨_, rfl, ?_⟩
  unfold applyCompletion
  by_cases hcond : a.engagementLevel ≠ 5 ∨ a.unexpectedResults ≠ []
  · rw [if_pos hcond]
    simp [hcond]
  · rw [if_neg hcond]
    simp [hcond, hnone]

/-- Witness for C7 at a concrete schedule and argument set. -/
theorem c7_attach_condition_witness :
    ∃ out, completeBlockPure [c7wBlock] {} c7wArgs "t0" = Except.ok out ∧
      (out.blockCompleted.opportunityContext ≠ none ↔
        (c7wArgs.engagementLevel ≠ 5 ∨ c7wArgs.unexpectedResults ≠ [])) :=
  c7_attach_condition [c7wBlock] {} c7wArgs "t0" c7wBlock (by decide) (by decide)

/-- C8 counterexample: completing a block with engagement 9 and no
other signals (learned and nextQuestions empty, breakthrough false,
feedback and result lists empty, viral flag false) leaves the frontier
unchanged, because the graph mutation step runs only when learned,
nextQuestions or breakthrough is truthy; the claim instead requires
exactly one appended opportunity node. -/
theorem c8_falsified :
    (completeBlockPure [c8Block] c8Hta c8Args "t1").toOption.map
        (fun o => o.hta.frontierNodes) = some c8Hta.frontierNodes ∧
      c8Args.engagementLevel = 9 ∧ c8Args.learned = "" ∧
      c8Args.nextQuestions = "" ∧ c8Args.breakthrough = false ∧
      c8Args.externalFeedback = [] ∧ c8Args.viralPotential = false := by
  refine ⟨by decide, by decide, by decide, by decide, by decide, by decide, by decide⟩

/-- C8 (amended): with engagement 9 and no other signals, completing a
block leaves the HTA document unchanged, since graph mutation is gated
on learned, nextQuestions or breakthrough; the opportunity generator
itself, invoked on a block carrying such a context, does produce exactly
one node whose opportunity type is breakthrough_amplification and whose
priority is 350. -/
theorem c8_breakthrough_amplification :
    (∀ (scheduleBlocks : List Block) (htaData : HTAData) (a : CompleteArgs)
        (nowIso : String) (out : CompletionOutcome),
        a.learned = "" → a.nextQuestions = "" → a.breakthrough = false →
        completeBlockPure scheduleBlocks htaData a nowIso = Except.ok out →
        out.hta = htaData) ∧
    (∀ (block : Block) (htaData : HTAData) (ctx : OpportunityContext),
        block.opportunityContext = some ctx →
        ctx.engagementLevel = 9 → ctx.externalFeedback = [] →
        ctx.viralPotential = false →
        ∃ node, generateOpportunityTasks block htaData = [node] ∧
          node.opportunityType = some "breakthrough_amplification" ∧
          node.priority = some 350) := by
  constructor
  · intro sb hta a now out hl hq hb hok
    unfold completeBlockPure at hok
    cases hfind : sb.find? (fun b => b.id == a.blockId) with
    | none =>
      rw [hfind] at hok
      exact absurd hok (by simp)
    | some block =>
      rw [hfind] at hok
      dsimp only at hok
      have hgate : ¬(a.learned ≠ "" ∨ a.nextQuestions ≠ "" ∨ a.breakthrough = true) := by
        simp [hl, hq, hb]
      rw [if_neg hgate] at hok
      injection hok with h
      rw [← h]
  · intro block hta ctx hctx heng hfb hviral
    obtain ⟨e, ur, ns, ef, sr, vp, ic, se⟩ := ctx
    dsimp only at heng hfb hviral
    subst heng
    subst hfb
    subst hviral
    unfold generateOpportunityTasks
    rw [hctx]
    dsimp only
    rw [if_pos (by norm_num : (9 : Int) ≥ 8)]
    simp only [List.length_nil, gt_iff_lt, lt_self_iff_false, false_and, if_false,
      Bool.false_eq_true, List.append_nil]
    exact ⟨_, rfl, rfl, rfl⟩

/-- Witness for C8: the generator applied to a concrete block carrying
an engagement-9 context. -/
theorem c8_breakthrough_amplification_witness :
    ∃ node, generateOpportunityTasks c8wBlock { frontierNodes := [] } = [node] ∧
      node.opportunityType = some "breakthrough_amplification" ∧
      node.priority = some 350 :=
  c8_breakthrough_amplification.2 c8wBlock { frontierNodes := [] } c8wCtx
    (by decide) (by decide) (by decide) (by decide)

/-- C10 counterexample: with 3 available tasks but an empty learning
history, the empty recent-completion list makes the average engagement
0, the low_engagement indicator fires, and the boring-and-stuck
feedback yields increase_variety_and_interest, not
address_user_concerns; sentiment is still classified negative. -/
theorem c10_falsified :
    getAvailableTasksCount c10Hta = 3 ∧
      (analyzeCurrentStrategyPure c10Hta {} "this is so boring and I feel stuck"
          0).userFeedback.sentiment = "negative" ∧
      (analyzeCurrentStrategyPure c10Hta {} "this is so boring and I feel stuck"
          0).recommendedEvolution = some "increase_variety_and_interest" := by
  refine ⟨by decide, by decide, by decide⟩

/-- C10 (amended): when at least 3 tasks are available and the
low-engagement indicator is off (average energy of trailing-7-day
completions at least 2.5), the feedback classifies negative and the
strategy is address_user_concerns. -/
theorem c10_boring_stuck_strategy (htaData : HTAData) (history : LearningHistory)
    (now : Int) (havail : getAvailableTasksCount htaData ≥ 3)
    (heng : lowEngagementB history now = false) :
    (analyzeCurrentStrategyPure htaData history "this is so boring and I feel stuck"
        now).userFeedback.sentiment = "negative" ∧
      (analyzeCurrentStrategyPure htaData history "this is so boring and I feel stuck"
          now).recommendedEvolution = some "address_user_concerns" := by
  have hne : ¬(getAvailableTasksCount htaData = 0) := by omega
  have hstuck : detectStuckIndicators htaData history now =
      (if (recentCompletions history now).length = 0 then ["no_recent_progress"] else []) := by
    have hengne : ¬(lowEngagementB history now = true) := by
      rw [heng]; exact Bool.false_ne_true
    unfold detectStuckIndicators
    rw [if_neg hne, if_neg hengne, List.nil_append, List.append_nil]
  have h1 : (detectStuckIndicators htaData history now).contains "no_available_tasks" = false := by
    rw [hstuck]
    by_cases hrec : (recentCompletions history now).length = 0
    · rw [if_pos hrec]; decide
    · rw [if_neg hrec]; decide
  have h2 : (detectStuckIndicators htaData history now).contains "low_engagement" = false := by
    rw [hstuck]
    by_cases hrec : (recentCompletions history now).length = 0
    · rw [if_pos hrec]; decide
    · rw [if_neg hrec]; decide
  have hsent : (analyzeFeedback "this is so boring and I feel stuck").sentiment = "negative" := by
    decide
  constructor
  · exact hsent
  · show some (determineEvolutionStrategy _) = _
    unfold determineEvolutionStrategy
    dsimp only
    rw [h1, h2]
    simp [hsent]

/-- Witness for C10: three available tasks and one recent completion of
energy 5, so low engagement is off. -/
theorem c10_boring_stuck_strategy_witness :
    (analyzeCurrentStrategyPure c10Hta c10wHistory "this is so boring and I feel stuck"
        1000).userFeedback.sentiment = "negative" ∧
      (analyzeCurrentStrategyPure c10Hta c10wHistory "this is so boring and I feel stuck"
          1000).recommendedEvolution = some "address_user_concerns" :=
  c10_boring_stuck_strategy c10Hta c10wHistory 1000 (by decide) (by decide)

theorem jsMulRound07_spot_45 : jsMulRound07 45 = 31 := by decide

theorem jsMulRound07_spot_30 : jsMulRound07 30 = 21 := by decide

theorem jsMulRound07_spot_165 : jsMulRound07 165 = 115 := by decide

theorem jsMulRound07_spot_5 : jsMulRound07 5 = 4 := by decide

/-- C9 counterexample: with a 2 hours focus preference and a 30 minute
base duration the code returns min(120, 60) = 60, not the fixed 120 the
claim states. -/
theorem c9_falsified :
    jsIncludes (jsOrStr c9Prefs.focus_duration "flexible") "2 hour" = true ∧
      calculateTaskDuration c9Task c9Prefs 3 = 60 ∧
      calculateTaskDuration c9Task c9Prefs 3 ≠ 120 := by
  refine ⟨by decide, by decide, by decide⟩

/-- C9 (amended): calculateTaskDuration computes exactly the amended
rule, for every task, preference set and energy level. -/
theorem c9_duration_formula (task : FrontierNode) (preferences : Preferences)
    (energyLevel : Int) :
    calculateTaskDuration task preferences energyLevel =
      c9AmendedDuration task preferences energyLevel := rfl

theorem chainFrom_le (bs : List Block) : ∀ (t : Nat), ChainFrom t bs →
    ∀ b ∈ bs, t ≤ b.startMin := by
  induction bs with
  | nil =>
    intro t _ b hb
    cases hb
  | cons x xs ih =>
    intro t hch b hb
    obtain ⟨hx, hrest⟩ := hch
    rcases List.mem_cons.mp hb with rfl | hb2
    · omega
    · have := ih (t + x.duration) hrest b hb2
      omega

theorem chainFrom_pairwise (bs : List Block) : ∀ (t : Nat), ChainFrom t bs →
    bs.Pairwise (fun a b => a.startMin + a.duration ≤ b.startMin) := by
  induction bs with
  | nil =>
    intro t _
    exact List.Pairwise.nil
  | cons x xs ih =>
    intro t hch
    obtain ⟨hx, hrest⟩ := hch
    refine List.Pairwise.cons ?_ (ih (t + x.duration) hrest)
    intro b hb
    have := chainFrom_le xs (t + x.duration) hrest b hb
    omega

theorem packLoop_chain (prioH : List Int) (meals : List (Option Nat))
    (prefs : Preferences) (energy : Int) (focusType : String) (endTime : Nat) :
    ∀ (fuel t : Nat) (tasks : List FrontierNode) (count : Nat),
      ChainFrom t (packLoop prioH meals prefs energy focusType endTime fuel t tasks count) := by
  intro fuel
  induction fuel with
  | zero =>
    intro t tasks count
    trivial
  | succ f ih =>
    intro t tasks count
    simp only [packLoop]
    split
    · split
      · refine ⟨rfl, ?_⟩
        split
        · trivial
        · exact ih (t + 45) tasks (count + 1)
      · split
        · split
          · refine ⟨rfl, rfl, ?_⟩
            split
            · trivial
            · exact ih
                (t + calculateTaskDuration
                    (selectTaskForTimeSlot tasks t energy focusType) prefs energy +
                  getBreakDuration prefs)
                (tasks.erase (selectTaskForTimeSlot tasks t energy focusType)) (count + 2)
          · refine ⟨rfl, ?_⟩
            split
            · trivial
            · exact ih
                (t + calculateTaskDuration
                    (selectTaskForTimeSlot tasks t energy focusType) prefs energy)
                (tasks.erase (selectTaskForTimeSlot tasks t energy focusType)) (count + 1)
        · refine ⟨rfl, ?_⟩
          split
          · trivial
          · exact ih (t + (generateHabitBlock t).2) tasks (count + 1)
    · trivial

theorem packLoop_count (prioH : List Int) (meals : List (Option Nat))
    (prefs : Preferences) (energy : Int) (focusType : String) (endTime : Nat) :
    ∀ (fuel t : Nat) (tasks : List FrontierNode) (count : Nat), count ≤ 50 →
      count + (packLoop prioH meals prefs energy focusType endTime fuel t tasks count).length
        ≤ 52 := by
  intro fuel
  induction fuel with
  | zero =>
    intro t tasks count hcount
    simp only [packLoop, List.length_nil]
    omega
  | succ f ih =>
    intro t tasks count hcount
    simp only [packLoop]
    split
    · split
      · simp only [List.length_cons]
        split
        · simp only [List.length_nil]
          omega
        · have := ih (t + 45) tasks (count + 1) (by omega)
          omega
      · split
        · split
          · simp only [List.length_cons]
            split
            · simp only [List.length_nil]
              omega
            · have := ih
                (t + calculateTaskDuration
                    (selectTaskForTimeSlot tasks t energy focusType) prefs energy +
                  getBreakDuration prefs)
                (tasks.erase (selectTaskForTimeSlot tasks t energy focusType)) (count + 2)
                (by omega)
              omega
          · simp only [List.length_cons]
            split
            · simp only [List.length_nil]
              omega
            · have := ih
                (t + calculateTaskDuration
                    (selectTaskForTimeSlot tasks t energy focusType) prefs energy)
                (tasks.erase (selectTaskForTimeSlot tasks t energy focusType)) (count + 1)
                (by omega)
              omega
        · simp only [List.length_cons]
          split
          · simp only [List.length_nil]
            omega
          · have := ih (t + (generateHabitBlock t).2) tasks (count + 1) (by omega)
            omega
    · simp only [List.length_nil]
      omega

/-- C4 counterexample: a full-day range with no meals and no tasks
yields 51 habit blocks before the cap check fires, because the check
blocks.length > 50 runs only after the push; this exceeds the claimed
bound of 50. -/
theorem c4_falsified :
    (createTimeBlocksScoped [] 0 1439 [] [] 3 "mixed" {}).length = 51 := by
  decide

/-- C4 (amended): the loop with priorityHours in scope (the function as
written instead raises ReferenceError before producing any block, see
C6) produces at most 52 blocks - the cap check runs only after pushing
up to two blocks per iteration, so 51 or 52 blocks are reachable - with
non-decreasing start times and pairwise non-overlapping intervals. -/
theorem c4_packer_bounds (priorityHours : List Int) (wakeTime sleepTime : Nat)
    (mealTimes : List (Option Nat)) (readyTasks : List FrontierNode)
    (energyLevel : Int) (focusType : String) (preferences : Preferences) :
    (createTimeBlocksScoped priorityHours wakeTime sleepTime mealTimes readyTasks
        energyLevel focusType preferences).length ≤ 52 ∧
      (createTimeBlocksScoped priorityHours wakeTime sleepTime mealTimes readyTasks
          energyLevel focusType preferences).Pairwise
        (fun a b => a.startMin ≤ b.startMin) ∧
      (createTimeBlocksScoped priorityHours wakeTime sleepTime mealTimes readyTasks
          energyLevel focusType preferences).Pairwise
        (fun a b => a.startMin + a.duration ≤ b.startMin) := by
  have hchain := packLoop_chain priorityHours mealTimes preferences energyLevel
    focusType sleepTime 52 wakeTime readyTasks 0
  have hpw := chainFrom_pairwise _ wakeTime hchain
  have hcount := packLoop_count priorityHours mealTimes preferences energyLevel
    focusType sleepTime 52 wakeTime readyTasks 0 (by omega)
  unfold createTimeBlocksScoped
  refine ⟨by omega, List.Pairwise.imp ?_ hpw, hpw⟩
  intro a b h
  omega

/-- C5: on the scenario inputs the function as written throws the
priorityHours ReferenceError instead of producing the described blocks;
the loop with priorityHours in scope does produce them: a 45-minute
lunch block at 11:45 AM (within 15 minutes of noon), exactly one
30-minute learning block carrying the task id, every learning block
immediately followed by a break block, and no second learning block for
the task. -/
theorem c5_scenario :
    createTimeBlocks 420 1320 [some 720] [c5Task] 3 "mixed" {} =
        Except.error "priorityHours is not defined" ∧
      parseTime "7:00 AM" = some 420 ∧ parseTime "10:00 PM" = some 1320 ∧
      parseTime "12:00 PM" = some 720 ∧
      (c5Blocks.filter (fun b => b.kind == "meal")).map
          (fun b => (b.startMin, b.duration)) = [(705, 45)] ∧
      (720 ≤ 705 + 15 ∧ 705 ≤ 720 + 15) ∧
      (c5Blocks.filter (fun b => b.kind == "learning")).map
          (fun b => (b.taskId, b.duration)) = [(some "t1", 30)] ∧
      (List.zip c5Blocks c5Blocks.tail).all
          (fun p => p.1.kind != "learning" || p.2.kind == "break") = true := by
  refine ⟨by decide, by decide, by decide, by decide, by decide, by decide, by decide,
    by decide⟩

/-- C6: whenever the parsed wake time is strictly before the parsed
sleep time, createTimeBlocks errors on the out-of-scope priorityHours,
generateDailySchedule takes its catch branch, returns the error text and
saves no day document. -/
theorem c6_reference_error (preferences : Preferences) (htaData : HTAData)
    (energyLevel : Int) (focusType : String) (w s : Nat)
    (hw : parseTime (jsOrStr preferences.wake_time "7:00 AM") = some w)
    (hs : parseTime (jsOrStr preferences.sleep_time "10:00 PM") = some s)
    (hlt : w < s) :
    createTimeBlocks w s (mealMinutes preferences) (getReadyTasks htaData)
        energyLevel focusType preferences =
        Except.error "priorityHours is not defined" ∧
      (generateDailySchedulePure preferences htaData energyLevel focusType).savedBlocks
        = none ∧
      (generateDailySchedulePure preferences htaData energyLevel focusType).text =
        "Error generating schedule: priorityHours is not defined" := by
  have hcb : createTimeBlocks w s (mealMinutes preferences) (getReadyTasks htaData)
      energyLevel focusType preferences =
      Except.error "priorityHours is not defined" := by
    unfold createTimeBlocks
    rw [if_pos hlt]
  have hgen : generateDailySchedulePure preferences htaData energyLevel focusType =
      { text := "Error generating schedule: priorityHours is not defined",
        savedBlocks := none } := by
    unfold generateDailySchedulePure
    rw [hw, hs]
    dsimp only
    rw [hcb]
    decide
  exact ⟨hcb, by rw [hgen], by rw [hgen]⟩

/-- Witness for C6: the default preferences parse to 420 and 1320. -/
theorem c6_reference_error_witness :
    createTimeBlocks 420 1320 (mealMinutes {}) (getReadyTasks {}) 3 "mixed" {} =
        Except.error "priorityHours is not defined" ∧
      (generateDailySchedulePure {} {} 3 "mixed").savedBlocks = none ∧
      (generateDailySchedulePure {} {} 3 "mixed").text =
        "Error generating schedule: priorityHours is not defined" :=
  c6_reference_error {} {} 3 "mixed" 420 1320 (by decide) (by decide) (by decide)
